import Mathlib

/-!
Shallow embedding of the recovery-app firmware components
(`storage_manager.c`, `auth_manager.c`, `wifi_manager.c`,
`server_manager.c`) and proofs about the claims of the specification.

Machine effects (NVS, radio driver, OTA driver, sockets) are modelled as
explicit inputs: each driver call's outcome is a boolean or option field of
an environment record, and the byte stream of an HTTP body is a list of
recv events.  The unbounded C loops are modelled with an explicit fuel
parameter; a result of `spinning` for every fuel bound means the C loop
never exits.
-/

/-- ESP-IDF style error codes used by the components. -/
inductive EspErr
  | ok
  | fail
  | invalidArg
  | notFound
  | invalidLength
  | noMem
  deriving DecidableEq, Repr

/-! ## Storage manager (`storage_manager.c`) -/

/-- The NVS `app_settings` namespace: the four string keys the app uses.
`none` models an absent key. -/
structure Store where
  ssid : Option String
  pass : Option String
  masterPass : Option String
  sessionToken : Option String
  deriving DecidableEq, Repr

/-- `storage_get_wifi_creds` (storage_manager.c:56-117).  `defSsid`/`defPass`
are the compile-time `CONFIG_WIFI_SSID`/`CONFIG_WIFI_PASSWORD` macros;
`openOk` is the outcome of `nvs_open`.  Buffer sizes are the caller's
`ssid_len`/`pass_len`; `strncpy(buf, def, len-1)` on a zeroed buffer is
modelled by `String.take (len-1)`.  A read failure mid-way (key absent or
stored string longer than the buffer) falls back to the Kconfig defaults
and returns `ok`, exactly as the C does. -/
def storage_get_wifi_creds (defSsid defPass : String) (openOk : Bool)
    (store : Store) (ssidLen passLen : Nat) : EspErr × String × String :=
  if ssidLen = 0 || passLen = 0 then (.invalidArg, "", "")
  else if !openOk then
    (.ok, defSsid.take (ssidLen - 1), defPass.take (passLen - 1))
  else
    let read : Option (String × String) :=
      match store.ssid with
      | none => none
      | some s =>
        if s.length + 1 > ssidLen then none
        else
          match store.pass with
          | none => some (s, "")
          | some p =>
            if p.length + 1 > passLen then none
            else some (s, p)
    match read with
    | some (s, p) => (.ok, s, p)
    | none => (.ok, defSsid.take (ssidLen - 1), defPass.take (passLen - 1))

/-- `storage_set_wifi_creds` (storage_manager.c:119-138).  The three driver
steps (`nvs_set_str` twice, `nvs_commit`) each may fail; any failure leaves
the committed store unchanged. -/
def storage_set_wifi_creds (openOk setSsidOk setPassOk commitOk : Bool)
    (store : Store) (ssid pass : String) : EspErr × Store :=
  if !openOk then (.fail, store)
  else if !setSsidOk then (.fail, store)
  else if !setPassOk then (.fail, store)
  else if !commitOk then (.fail, store)
  else (.ok, { store with ssid := some ssid, pass := some pass })

/-! ## Auth manager (`auth_manager.c`) -/

/-- Character-list analogue of C `strncmp`-style leading match: does the
first list occur at the head of the second? -/
def leadingMatch : List Char → List Char → Bool
  | [], _ => true
  | _ :: _, [] => false
  | a :: as, b :: bs => a == b && leadingMatch as bs

/-- Character-list analogue of C `strstr`: does the needle occur as a
contiguous substring of the haystack? -/
def containsSub (needle : List Char) : List Char → Bool
  | [] => leadingMatch needle []
  | b :: bs => leadingMatch needle (b :: bs) || containsSub needle bs

/-- `SESSION_TIMEOUT_US` (auth_manager.c:13): 30 days in microseconds. -/
def SESSION_TIMEOUT_US : Int := 30 * 24 * 60 * 60 * 1000000

/-- Auth manager state: `token` is the RAM `s_session_token` (empty string
models `s_session_token[0] == '\0'`), `lastActivity` is
`s_last_activity_time` in microseconds, and `storedToken` is the persisted
`auth_token` NVS key (which `auth_guard` never touches). -/
structure AuthState where
  token : String
  lastActivity : Int
  storedToken : Option String
  deriving DecidableEq, Repr

/-- The verdicts `auth_guard` can produce, one per 401 message plus
authorized. -/
inductive GuardResult
  | authorized
  | noSession
  | expired
  | missingCookie
  | invalidToken
  deriving DecidableEq, Repr

/-- `auth_guard` (auth_manager.c:39-79).  `cookie` is the request's
`Cookie` header value (`none` when absent); the 256-byte stack buffer means
a header value longer than 255 characters is not read (`ESP_OK` is not
returned by `httpd_req_get_hdr_value_str`) and is rejected like a missing
header.  On token-substring success `s_last_activity_time` is refreshed;
on expiry the RAM token is cleared. -/
def auth_guard (st : AuthState) (cookie : Option String) (now : Int) :
    GuardResult × AuthState :=
  if st.token = "" then (.noSession, st)
  else if now - st.lastActivity > SESSION_TIMEOUT_US then
    (.expired, { st with token := "" })
  else
    match cookie with
    | none => (.missingCookie, st)
    | some c =>
      if c.length > 255 then (.missingCookie, st)
      else if containsSub st.token.data c.data then
        (.authorized, { st with lastActivity := now })
      else (.invalidToken, st)

/-! ## Server manager: POST /settings (`server_manager.c:32-84`) -/

/-- A parsed cJSON field value: a string, or some non-string JSON value. -/
inductive JsonVal
  | str (v : String)
  | nonstr
  deriving DecidableEq, Repr

/-- The request body as `cJSON_Parse` sees it: unparseable, or an object
whose `"ssid"` and `"password"` members are each absent or some value. -/
inductive SettingsBody
  | malformed
  | json (ssidField passField : Option JsonVal)
  deriving DecidableEq, Repr

/-- A POST /settings request: the `Cookie` header (never consulted by the
handler), the `Content-Length`, and the body. -/
structure SettingsReq where
  cookie : Option String
  contentLen : Nat
  body : SettingsBody
  deriving DecidableEq, Repr

/-- Outcomes of `settings_post_handler`, one per response the C code can
send. -/
inductive SettingsResult
  | tooLarge500
  | parseErr500
  | storeErr500
  | saved200
  deriving DecidableEq, Repr

/-- HTTP status code of each settings outcome. -/
def settingsStatus : SettingsResult → Nat
  | .saved200 => 200
  | _ => 500

/-- `settings_post_handler` (server_manager.c:32-84).  Bodies of 200 bytes
or more overflow the stack buffer check and get 500; a parse failure gets
500; if both fields are strings the credentials are written via
`storage_set_wifi_creds` and 200 is sent (plus a deferred restart),
otherwise 500.  No authentication and no length validation occur. -/
def settings_post_handler (req : SettingsReq)
    (openOk setSsidOk setPassOk commitOk : Bool) (store : Store) :
    SettingsResult × Store :=
  if req.contentLen ≥ 200 then (.tooLarge500, store)
  else
    match req.body with
    | .malformed => (.parseErr500, store)
    | .json s p =>
      match s, p with
      | some (.str sv), some (.str pv) =>
        match storage_set_wifi_creds openOk setSsidOk setPassOk commitOk store sv pv with
        | (.ok, store2) => (.saved200, store2)
        | (_, store2) => (.storeErr500, store2)
      | _, _ => (.storeErr500, store)

/-! ## Server manager: POST /ota (`server_manager.c:88-183`) -/

/-- One `httpd_req_recv` outcome: `chunk n` is a return of `n ≥ 0` bytes
(`0` models a peer close or empty read), `timeout` is
`HTTPD_SOCK_ERR_TIMEOUT`, `sockErr` any other negative return.  Reads past
the end of the event list return `0` forever (closed connection). -/
inductive RecvEvent
  | chunk (n : Nat)
  | timeout
  | sockErr
  deriving DecidableEq, Repr

/-- Outcome of the OTA stream loop.  `spinning` means the fuel ran out:
holding for every fuel bound, it denotes that the C `while` loop never
exits. -/
inductive LoopResult
  | completed
  | sockErrAbort
  | flashErrAbort
  | spinning
  deriving DecidableEq, Repr

/-- The OTA stream loop (server_manager.c:127-157), fuel-indexed.
Each iteration asks for `MIN(remaining, 1024)` bytes; a `chunk n` event
delivers `min n` of that.  A timeout is retried with a bare `continue`
(no counter); a zero-byte read neither errors nor decrements `remaining`,
so the loop repeats; a non-timeout socket error aborts (after
`esp_ota_end`); a flash write failure aborts with a 500. -/
def otaLoop : Nat → Nat → List RecvEvent → Bool → LoopResult
  | _, 0, _, _ => .completed
  | 0, _ + 1, _, _ => .spinning
  | fuel + 1, r + 1, events, writeOk =>
    match events with
    | [] => otaLoop fuel (r + 1) [] writeOk
    | e :: rest =>
      match e with
      | .timeout => otaLoop fuel (r + 1) rest writeOk
      | .sockErr => .sockErrAbort
      | .chunk n =>
        let received := min n (min (r + 1) 1024)
        if received = 0 then otaLoop fuel (r + 1) rest writeOk
        else if writeOk then otaLoop fuel (r + 1 - received) rest writeOk
        else .flashErrAbort

/-- Driver-call outcomes for one OTA request: the next update partition (if
any) and the success of `esp_ota_begin`, `esp_ota_write`, `esp_ota_end`
and `esp_ota_set_boot_partition`. -/
structure OtaEnv where
  nextPartition : Option Nat
  beginOk : Bool
  writeOk : Bool
  endOk : Bool
  setBootOk : Bool
  deriving DecidableEq, Repr

/-- A POST /ota request: the `Cookie` header (never consulted by the
handler), the `Content-Length`, and the recv event stream. -/
structure OtaReq where
  cookie : Option String
  contentLen : Nat
  stream : List RecvEvent
  deriving DecidableEq, Repr

/-- Outcomes of `ota_post_handler`, one per exit of the C function (plus
`spinning` for a loop that never exits). -/
inductive OtaResult
  | noPartition500
  | beginFailed500
  | sockFail
  | flashFail500
  | validationFailed500
  | bootSetFailed500
  | success200
  | spinning
  deriving DecidableEq, Repr

/-- `ota_post_handler` (server_manager.c:88-183), returning the outcome and
the boot pointer (the active boot slot number) after the request.  The boot
pointer is assigned to the target partition only on the full success path,
after `esp_ota_end` and `esp_ota_set_boot_partition` both succeed. -/
def ota_post_handler (env : OtaEnv) (req : OtaReq) (fuel : Nat)
    (boot : Nat) : OtaResult × Nat :=
  match env.nextPartition with
  | none => (.noPartition500, boot)
  | some target =>
    if !env.beginOk then (.beginFailed500, boot)
    else
      match otaLoop fuel req.contentLen req.stream env.writeOk with
      | .spinning => (.spinning, boot)
      | .sockErrAbort => (.sockFail, boot)
      | .flashErrAbort => (.flashFail500, boot)
      | .completed =>
        if !env.endOk then (.validationFailed500, boot)
        else if !env.setBootOk then (.bootSetFailed500, boot)
        else (.success200, target)

/-! ## WiFi manager (`wifi_manager.c`) -/

/-- `MAX_STA_RETRIES` (wifi_manager.c:15). -/
def MAX_STA_RETRIES : Nat := 5

/-- State touched by `sta_event_handler`: the retry counter `s_retry_num`,
the two event-group bits, and a count of `esp_wifi_connect` calls (to make
"triggers a reconnect attempt" observable). -/
structure StaState where
  retryNum : Nat
  connectedBit : Bool
  failBit : Bool
  connectAttempts : Nat
  deriving DecidableEq, Repr

/-- The radio events `sta_event_handler` dispatches on. -/
inductive StaEvent
  | staStart
  | disconnected
  | gotIp
  deriving DecidableEq, Repr

/-- `sta_event_handler` (wifi_manager.c:22-61).  `connectOk` is the
outcome of `esp_wifi_connect`.  On a disconnect with
`s_retry_num < MAX_STA_RETRIES` the counter is incremented and a reconnect
issued; otherwise the FAIL bit is set.  `GOT_IP` resets the counter and
sets the CONNECTED bit. -/
def sta_event_handler (connectOk : Bool) (st : StaState) (e : StaEvent) :
    StaState :=
  match e with
  | .staStart =>
    let st1 := { st with connectAttempts := st.connectAttempts + 1 }
    if connectOk then st1 else { st1 with failBit := true }
  | .disconnected =>
    if st.retryNum < MAX_STA_RETRIES then
      let st1 := { st with retryNum := st.retryNum + 1,
                           connectAttempts := st.connectAttempts + 1 }
      if connectOk then st1 else { st1 with failBit := true }
    else { st with failBit := true }
  | .gotIp => { st with retryNum := 0, connectedBit := true }

/-- Fold a disconnect-only event trace (no intervening `GOT_IP`, reconnects
succeeding) from the fresh state. -/
def runDisconnects (n : Nat) : StaState :=
  (List.replicate n StaEvent.disconnected).foldl (sta_event_handler true)
    ⟨0, false, false, 0⟩

/-- Driver-call outcomes for one `wifi_manager_try_connect_sta` run:
netif creation, the two event-handler registrations, mode/config/start,
whether the event wait ends with the CONNECTED bit, and `esp_wifi_stop`. -/
structure WifiHw where
  netifOk : Bool
  regAnyOk : Bool
  regIpOk : Bool
  setModeOk : Bool
  setCfgOk : Bool
  startOk : Bool
  waitConnected : Bool
  stopOk : Bool
  deriving DecidableEq, Repr

/-- Radio-side state observable from `wifi_manager_try_connect_sta`:
whether each of the two event-handler instances is registered, and whether
the radio has been configured for station mode / started. -/
structure WifiState where
  regAny : Bool
  regIp : Bool
  configured : Bool
  started : Bool
  deriving DecidableEq, Repr

/-- `wifi_manager_try_connect_sta` (wifi_manager.c:91-189).  Returns
(function error code, `*out_connected`, resulting radio state).  Absent or
failed credentials return `ESP_OK` with `false` and no state change; a
failure of the second registration unregisters the first before returning;
failures of `esp_wifi_set_mode`, `esp_wifi_set_config` or `esp_wifi_start`
return immediately (without unregistering); the main path unregisters both
handlers after the event wait and stops the radio when not connected. -/
def wifi_manager_try_connect_sta (defSsid defPass : String)
    (credsOpenOk : Bool) (store : Store) (hw : WifiHw) (st : WifiState) :
    EspErr × Bool × WifiState :=
  match storage_get_wifi_creds defSsid defPass credsOpenOk store 33 65 with
  | (e, _ssid, _pass) =>
    if e ≠ .ok then (.ok, false, st)
    else if !hw.netifOk then (.fail, false, st)
    else if !hw.regAnyOk then (.fail, false, st)
    else
      let st1 := { st with regAny := true }
      if !hw.regIpOk then (.fail, false, { st1 with regAny := false })
      else
        let st2 := { st1 with regIp := true }
        if !hw.setModeOk then (.fail, false, st2)
        else if !hw.setCfgOk then (.fail, false, st2)
        else
          let st3 := { st2 with configured := true }
          if !hw.startOk then (.fail, false, st3)
          else
            let st4 := { st3 with started := true }
            let st5 := { st4 with regIp := false, regAny := false }
            if hw.waitConnected then (.ok, true, st5)
            else (.ok, false,
              { st5 with started := if hw.stopOk then false else st5.started })

/-! ## Concrete fixtures -/

/-- An empty settings store (no keys present). -/
def store0 : Store := ⟨none, none, none, none⟩

/-- A store holding WiFi credentials. -/
def storeHome : Store := ⟨some "home", some "pw", none, none⟩

/-- An OTA environment in which every driver call succeeds; the next update
partition is slot 1. -/
def envAllOk : OtaEnv := ⟨some 1, true, true, true, true⟩

/-- Radio driver behaviour with every call succeeding but the connection
attempt ending without the CONNECTED bit. -/
def hwNoConn : WifiHw := ⟨true, true, true, true, true, true, false, true⟩

/-- Radio driver behaviour in which `esp_wifi_set_mode` fails and
everything else succeeds. -/
def hwSetModeFail : WifiHw := ⟨true, true, true, false, true, true, false, true⟩

/-- The fresh radio state: nothing registered, radio neither configured nor
started. -/
def wifiState0 : WifiState := ⟨false, false, false, false⟩

/-! ## Concrete strings for boundary claims -/

/-- A 33-character SSID (one past the 32-byte bound). -/
def ssid33 : String := String.mk (List.replicate 33 'a')

/-- A 65-character password (one past the 64-byte bound). -/
def pass65 : String := String.mk (List.replicate 65 'b')

/-! ## Helper lemmas -/

/-- Once the recv event list is exhausted (connection closed, every recv
returns 0 bytes) and bytes remain, the OTA stream loop makes no progress:
it runs out of any fuel bound, i.e. the C loop never exits. -/
theorem otaLoop_nil_spins (w : Bool) :
    ∀ fuel r, otaLoop fuel (r + 1) [] w = LoopResult.spinning
  | 0, _ => rfl
  | fuel + 1, r => otaLoop_nil_spins w fuel r

/-! ## Claims -/

/-- C1: the claim asserts that a POST to /settings or /ota without a valid
session token is rejected with 401 and causes no state change.  In the
source neither `settings_post_handler` nor `ota_post_handler` ever invokes
`auth_guard`: for every cookie value (including no cookie at all) a
well-formed /settings body is saved to the store with a 200, and a
well-formed /ota stream is flashed, validated and the boot pointer
switched with a 200.  Unauthorized requests reach both the settings-save
and the update-engine logic and change state. -/
theorem c1_settings_ota_unguarded :
    ∀ cookie : Option String,
      settings_post_handler
          ⟨cookie, 50, .json (some (.str "a")) (some (.str "b"))⟩
          true true true true store0 =
        (.saved200, ⟨some "a", some "b", none, none⟩) ∧
      ota_post_handler envAllOk ⟨cookie, 4, [RecvEvent.chunk 4]⟩ 10 0 =
        (.success200, 1) := by
  intro cookie
  exact ⟨rfl, rfl⟩

/-- C2: the claim asserts that a stream delivering fewer than
`Content-Length` bytes before ending makes the OTA operation terminate
with a `LengthMismatch` error.  In the source, once the peer closes the
connection every recv returns 0 bytes, which neither errors nor decrements
`remaining`, so the `while (remaining > 0)` loop never exits: for every
fuel bound the run is still `spinning` (and the code has no LengthMismatch
path at all).  Shown at Content-Length 2 with a single 1-byte chunk
delivered before the close. -/
theorem c2_short_stream_never_terminates :
    ∀ fuel : Nat,
      ota_post_handler envAllOk ⟨none, 2, [RecvEvent.chunk 1]⟩ fuel 0 =
        (.spinning, 0) := by
  intro fuel
  have h : otaLoop fuel 2 [RecvEvent.chunk 1] true = .spinning := by
    cases fuel with
    | zero => rfl
    | succ n =>
      show otaLoop n 1 [] true = .spinning
      exact otaLoop_nil_spins true n 0
  simp [ota_post_handler, envAllOk, h]

/-- C3 counterexample: the claim asserts the transfer is aborted with
`StreamTimeout` exactly when 5 consecutive timeouts occur.  In the source
a timeout is a bare `continue`: after 5 consecutive socket timeouts the
transfer is not aborted — here it goes on to complete successfully and
switch the boot pointer. -/
theorem c3_five_timeouts_not_aborted :
    ota_post_handler envAllOk
        ⟨none, 4, List.replicate 5 RecvEvent.timeout ++ [RecvEvent.chunk 4]⟩
        10 0 =
      (.success200, 1) := by
  rfl

/-- C3 (amended): a transient read timeout is retried unconditionally —
there is no retry counter and no `StreamTimeout` abort — so any number of
consecutive timeouts is transparent to the stream loop: prefixing `n`
timeouts to the event stream (with `n` more fuel) leaves the loop's result
unchanged, whatever comes after. -/
theorem c3_timeouts_retried_unboundedly :
    ∀ (n fuel r : Nat) (s : List RecvEvent) (w : Bool),
      otaLoop (fuel + n) r (List.replicate n RecvEvent.timeout ++ s) w =
        otaLoop fuel r s w := by
  intro n
  induction n with
  | zero => intro fuel r s w; rfl
  | succ m ih =>
    intro fuel r s w
    cases r with
    | zero => simp [otaLoop]
    | succ r =>
      show otaLoop (fuel + m) (r + 1) (List.replicate m RecvEvent.timeout ++ s) w =
        otaLoop fuel (r + 1) s w
      exact ih fuel (r + 1) s w

/-- C4: for every execution of the /ota handler, either the boot pointer
is unchanged, or the run succeeded and `esp_ota_end` (driver validation)
had succeeded; in particular every execution returning an error leaves the
active boot slot untouched, and the pointer is switched only after a
successful end-of-transaction. -/
theorem c4_boot_pointer_only_after_validation :
    ∀ (env : OtaEnv) (req : OtaReq) (fuel boot : Nat),
      (ota_post_handler env req fuel boot).2 = boot ∨
      ((ota_post_handler env req fuel boot).1 = OtaResult.success200 ∧
        env.endOk = true) := by
  intro env req fuel boot
  unfold ota_post_handler
  split
  · left; rfl
  · split
    · left; rfl
    · split
      · left; rfl
      · left; rfl
      · left; rfl
      · split
        next he => left; rfl
        next he =>
          split
          next hs => left; rfl
          next hs => right; exact ⟨rfl, by simpa using he⟩

set_option maxRecDepth 10000 in
/-- C5: the claim (and the storage_manager.h contract) asserts that absent
WiFi credentials make `storage_get_wifi_creds` fail with not-found and
make `try_connect_station` return false immediately with no radio state
change.  In the source an absent SSID key falls back to the Kconfig
compile-time defaults and returns `ESP_OK`, and
`wifi_manager_try_connect_sta` then proceeds to drive the radio: with an
empty store it registers handlers, configures station mode and starts the
radio (the final state has `configured = true`). -/
theorem c5_absent_creds_return_defaults :
    storage_get_wifi_creds "DEFSSID" "DEFPASS" true store0 33 65 =
      (.ok, "DEFSSID", "DEFPASS") ∧
    wifi_manager_try_connect_sta "DEFSSID" "DEFPASS" true store0 hwNoConn
        wifiState0 =
      (.ok, false, ⟨false, false, true, false⟩) := by
  exact ⟨by decide, by decide⟩

/-- C6 counterexample: the claim asserts FAILED is raised after 5
consecutive disconnects without an intervening GOT_IP.  In the source the
guard is `s_retry_num < MAX_STA_RETRIES` before incrementing, so the 5th
consecutive disconnect still triggers a reconnect (the 5th attempt) and
the FAIL bit stays clear. -/
theorem c6_five_disconnects_no_fail :
    (runDisconnects 5).failBit = false := by decide

/-- C6 (amended): FAILED is raised only on the 6th consecutive disconnect
without an intervening GOT_IP; disconnects 1 through 5 each trigger an
automatic reconnect attempt (`esp_wifi_connect`); a GOT_IP event resets
the retry counter to 0 (and sets the CONNECTED bit). -/
theorem c6_fail_on_sixth_disconnect :
    (∀ n, n ≤ 5 →
      (runDisconnects n).failBit = false ∧
      (runDisconnects n).connectAttempts = n) ∧
    (runDisconnects 6).failBit = true ∧
    (runDisconnects 6).connectAttempts = 5 ∧
    (∀ (ok : Bool) (st : StaState),
      (sta_event_handler ok st .gotIp).retryNum = 0 ∧
      (sta_event_handler ok st .gotIp).connectedBit = true) := by
  refine ⟨?_, by decide, by decide, ?_⟩
  · intro n hn
    interval_cases n <;> exact ⟨by decide, by decide⟩
  · intro ok st
    exact ⟨rfl, rfl⟩

/-- C6 witness: the amended theorem applied at the 5th disconnect — the
FAIL bit is still clear and all 5 disconnects triggered reconnects. -/
theorem c6_fail_on_sixth_disconnect_witness :
    (runDisconnects 5).failBit = false ∧
    (runDisconnects 5).connectAttempts = 5 :=
  c6_fail_on_sixth_disconnect.1 5 (by decide)

/-- C7: the claim asserts that every exit path of `try_connect_station`
unregisters all event subscriptions registered during the attempt.  In the
source the error returns after `esp_wifi_set_mode`, `esp_wifi_set_config`
or `esp_wifi_start` fail happen with both handler instances still
registered: with credentials present and `esp_wifi_set_mode` failing, the
function exits with `regAny = true` and `regIp = true`. -/
theorem c7_setmode_failure_leaks_registrations :
    wifi_manager_try_connect_sta "D" "P" true storeHome hwSetModeFail
        wifiState0 =
      (.fail, false, ⟨true, true, false, false⟩) := by
  rfl

/-- C8: whenever `auth_guard` returns Authorized, the RAM session token is
non-empty, the elapsed time since `last_activity` is at most 30 days, and
the token occurs as a substring of the request's Cookie header value; on
that success path `last_activity` is updated to the current time. -/
theorem c8_guard_authorized_sound :
    ∀ (st : AuthState) (cookie : Option String) (now : Int),
      (auth_guard st cookie now).1 = GuardResult.authorized →
      st.token ≠ "" ∧
      now - st.lastActivity ≤ SESSION_TIMEOUT_US ∧
      (∃ c, cookie = some c ∧ containsSub st.token.data c.data = true) ∧
      (auth_guard st cookie now).2.lastActivity = now := by
  intro st cookie now h
  by_cases h1 : st.token = ""
  · simp [auth_guard, h1] at h
  by_cases h2 : now - st.lastActivity > SESSION_TIMEOUT_US
  · simp [auth_guard, h1, h2] at h
  cases cookie with
  | none => simp [auth_guard, h1, h2] at h
  | some c =>
    by_cases h3 : c.length > 255
    · simp [auth_guard, h1, h2, h3] at h
    by_cases h4 : containsSub st.token.data c.data = true
    · refine ⟨h1, not_lt.mp h2, ⟨c, rfl, h4⟩, ?_⟩
      simp [auth_guard, h1, h2, h3, h4]
    · simp [auth_guard, h1, h2, h3, h4] at h

/-- C8 witness: the soundness theorem applied to a concrete authorized
request (token `"ab"`, Cookie header `"access_token=ab"`, 5 µs after the
last activity). -/
theorem c8_guard_authorized_sound_witness :
    ("ab" : String) ≠ "" ∧
    (5 : Int) - 0 ≤ SESSION_TIMEOUT_US ∧
    (∃ c, (some "access_token=ab" : Option String) = some c ∧
      containsSub ("ab" : String).data c.data = true) ∧
    (auth_guard ⟨"ab", 0, none⟩ (some "access_token=ab") 5).2.lastActivity = 5 :=
  c8_guard_authorized_sound ⟨"ab", 0, none⟩ (some "access_token=ab") 5
    (by decide)

/-- C9 counterexample: the claim asserts a 33-byte SSID and a 65-byte
password are each rejected with 400.  In the source
`settings_post_handler` performs no length validation: a body with a
33-character SSID and a 65-character password is accepted, saved to the
store and answered with status 200. -/
theorem c9_oversize_creds_accepted :
    settings_post_handler
        ⟨none, 150, .json (some (.str ssid33)) (some (.str pass65))⟩
        true true true true store0 =
      (.saved200, ⟨some ssid33, some pass65, none, none⟩) ∧
    settingsStatus
        (settings_post_handler
          ⟨none, 150, .json (some (.str ssid33)) (some (.str pass65))⟩
          true true true true store0).1 = 200 := by
  exact ⟨rfl, rfl⟩

/-- C9 (amended): POST /settings performs no length validation on the
submitted SSID or password: every body under the 200-byte buffer bound
whose JSON carries string `ssid` and `password` fields is accepted and
saved whatever their lengths (so 32- and 33-byte SSIDs and 64- and
65-byte passwords are all accepted), and no request is ever answered with
status 400 (errors use 500). -/
theorem c9_no_length_validation :
    (∀ (sv pv : String) (cookie : Option String) (n : Nat) (store : Store),
      n < 200 →
      settings_post_handler ⟨cookie, n, .json (some (.str sv)) (some (.str pv))⟩
          true true true true store =
        (.saved200, { store with ssid := some sv, pass := some pv })) ∧
    (∀ (req : SettingsReq) (a b c d : Bool) (store : Store),
      settingsStatus (settings_post_handler req a b c d store).1 ≠ 400) := by
  constructor
  · intro sv pv cookie n store hn
    have hlt : ¬ (n ≥ 200) := by omega
    simp [settings_post_handler, storage_set_wifi_creds, hlt]
  · intro req a b c d store
    cases hr : (settings_post_handler req a b c d store).1 <;>
      simp [settingsStatus]

/-- C9 witness: the amended theorem applied at a 33-character SSID and a
65-character password. -/
theorem c9_no_length_validation_witness :
    settings_post_handler
        ⟨none, 150, .json (some (.str ssid33)) (some (.str pass65))⟩
        true true true true store0 =
      (.saved200, { store0 with ssid := some ssid33, pass := some pass65 }) :=
  c9_no_length_validation.1 ssid33 pass65 none 150 store0 (by decide)

/-- C10: when `auth_guard` rejects a request because more than 30 days
elapsed since `last_activity`, it clears the in-RAM session token, so every
subsequent guard call is rejected with the no-active-session verdict (not
the expired one) and leaves the state unchanged, while the persisted token
in the store is untouched. -/
theorem c10_expiry_clears_ram_token :
    ∀ (st : AuthState) (cookie cookie2 : Option String) (now now2 : Int),
      st.token ≠ "" →
      now - st.lastActivity > SESSION_TIMEOUT_US →
      (auth_guard st cookie now).1 = GuardResult.expired ∧
      (auth_guard st cookie now).2.token = "" ∧
      (auth_guard st cookie now).2.storedToken = st.storedToken ∧
      (auth_guard (auth_guard st cookie now).2 cookie2 now2).1 =
        GuardResult.noSession ∧
      (auth_guard (auth_guard st cookie now).2 cookie2 now2).2 =
        (auth_guard st cookie now).2 := by
  intro st cookie cookie2 now now2 h1 h2
  have hg : auth_guard st cookie now = (.expired, { st with token := "" }) := by
    simp [auth_guard, h1, h2]
  rw [hg]
  refine ⟨rfl, rfl, rfl, ?_, ?_⟩ <;> simp [auth_guard]

/-- C10 witness: the theorem applied to a concrete session (token `"ab"`,
last activity at 0) queried 1 µs past the 30-day timeout. -/
theorem c10_expiry_clears_ram_token_witness :
    (auth_guard ⟨"ab", 0, some "ab"⟩ none (SESSION_TIMEOUT_US + 1)).1 =
      GuardResult.expired ∧
    (auth_guard ⟨"ab", 0, some "ab"⟩ none (SESSION_TIMEOUT_US + 1)).2.token = "" ∧
    (auth_guard ⟨"ab", 0, some "ab"⟩ none (SESSION_TIMEOUT_US + 1)).2.storedToken =
      some "ab" ∧
    (auth_guard (auth_guard ⟨"ab", 0, some "ab"⟩ none (SESSION_TIMEOUT_US + 1)).2
        none 0).1 = GuardResult.noSession ∧
    (auth_guard (auth_guard ⟨"ab", 0, some "ab"⟩ none (SESSION_TIMEOUT_US + 1)).2
        none 0).2 =
      (auth_guard ⟨"ab", 0, some "ab"⟩ none (SESSION_TIMEOUT_US + 1)).2 :=
  c10_expiry_clears_ram_token ⟨"ab", 0, some "ab"⟩ none none
    (SESSION_TIMEOUT_US + 1) 0 (by decide) (by decide)
